import Mathlib

/-!
Verification of the gz-sensors depth camera sensor (`src/DepthCameraSensor.cc`).

Modelling conventions:
 - C++ doubles/floats are modelled as exact rationals extended with the IEEE
   special values `+inf`, `-inf` and `NaN` (inductive `F` below); the
   arithmetic on `F` follows the IEEE rules for the operations the sensor
   code performs (`255 / 0 = +inf`, `0 * inf = NaN`, ...).
 - The C++ conversion `static_cast<unsigned char>(double)` truncates toward
   zero and is undefined when the truncated value is not representable in
   `0..255`; it is modelled as an `Option Nat` (`none` = undefined).
 - Stateful code (`Update`, `Load`, the frame-capture callbacks) is modelled
   as pure functions on explicit state records that also return the list of
   observable effects (publishes, render calls, error reports).
-/

/-- An IEEE-style double, idealized: finite values are exact rationals, plus
the special values plus-infinity, minus-infinity and NaN. -/
inductive F where
  | fin : ℚ → F
  | pinf : F
  | ninf : F
  | nan : F
  deriving DecidableEq, Repr

/-- IEEE multiplication on `F`. -/
def fmul : F → F → F
  | F.nan, _ => F.nan
  | _, F.nan => F.nan
  | F.fin a, F.fin b => F.fin (a * b)
  | F.fin a, F.pinf => if 0 < a then F.pinf else if a < 0 then F.ninf else F.nan
  | F.fin a, F.ninf => if 0 < a then F.ninf else if a < 0 then F.pinf else F.nan
  | F.pinf, F.fin b => if 0 < b then F.pinf else if b < 0 then F.ninf else F.nan
  | F.ninf, F.fin b => if 0 < b then F.ninf else if b < 0 then F.pinf else F.nan
  | F.pinf, F.pinf => F.pinf
  | F.pinf, F.ninf => F.ninf
  | F.ninf, F.pinf => F.ninf
  | F.ninf, F.ninf => F.pinf

/-- IEEE subtraction on `F`. -/
def fsub : F → F → F
  | F.nan, _ => F.nan
  | _, F.nan => F.nan
  | F.fin a, F.fin b => F.fin (a - b)
  | F.fin _, F.pinf => F.ninf
  | F.fin _, F.ninf => F.pinf
  | F.pinf, F.fin _ => F.pinf
  | F.ninf, F.fin _ => F.ninf
  | F.pinf, F.pinf => F.nan
  | F.pinf, F.ninf => F.pinf
  | F.ninf, F.pinf => F.ninf
  | F.ninf, F.ninf => F.nan

/-- IEEE division on `F` (positive zero only: a nonzero numerator divided by
zero gives the infinity carrying the numerator's sign, `0/0` gives NaN). -/
def fdiv : F → F → F
  | F.nan, _ => F.nan
  | _, F.nan => F.nan
  | F.fin a, F.fin b =>
      if b = 0 then (if 0 < a then F.pinf else if a < 0 then F.ninf else F.nan)
      else F.fin (a / b)
  | F.fin _, F.pinf => F.fin 0
  | F.fin _, F.ninf => F.fin 0
  | F.pinf, F.fin b => if 0 ≤ b then F.pinf else F.ninf
  | F.ninf, F.fin b => if 0 ≤ b then F.ninf else F.pinf
  | F.pinf, _ => F.nan
  | F.ninf, _ => F.nan

/-- The C++ comparison `a > b` on doubles (false whenever NaN is involved). -/
def fgt : F → F → Bool
  | F.nan, _ => false
  | _, F.nan => false
  | F.fin a, F.fin b => decide (b < a)
  | F.pinf, F.pinf => false
  | F.pinf, _ => true
  | _, F.pinf => false
  | F.ninf, _ => false
  | F.fin _, F.ninf => true

/-- `std::isinf`. -/
def fisinf : F → Bool
  | F.pinf => true
  | F.ninf => true
  | _ => false

/-- True exactly on finite values (neither infinite nor NaN). -/
def isFiniteF : F → Bool
  | F.fin _ => true
  | _ => false

/-- Truncation toward zero, as performed by a C++ float-to-integer
conversion. -/
def qtrunc (q : ℚ) : ℤ := if 0 ≤ q then ⌊q⌋ else ⌈q⌉

/-- `static_cast<unsigned char>` applied to a double: truncate toward zero,
undefined (`none`) when the truncated value is not representable in `0..255`
or when the source value is NaN or infinite. -/
def toUChar : F → Option ℕ
  | F.fin q => if 0 ≤ qtrunc q ∧ qtrunc q ≤ 255 then some (qtrunc q).toNat else none
  | _ => none

/-- One step of the first scan of
`DepthCameraSensorPrivate::ConvertDepthToImage`:
`if (_data[i] > maxDepth && !std::isinf(_data[i])) maxDepth = _data[i]`. -/
def maxStepF (m d : F) : F := if fgt d m && !(fisinf d) then d else m

/-- First scan of `DepthCameraSensorPrivate::ConvertDepthToImage`: `maxDepth`
starts at `0` and takes every sample that is greater than the current value
and not infinite. -/
def maxDepthScan (data : List F) : F := data.foldl maxStepF (F.fin 0)

/-- Rational shadow of one step of the first scan (used to reason about
`maxDepthScan`, whose accumulator always stays finite). -/
def maxQstep (c : ℚ) (d : F) : ℚ :=
  match d with
  | F.fin a => if c < a then a else c
  | _ => c

/-- Rational shadow of `maxDepthScan`. -/
def maxQList (data : List F) : ℚ := data.foldl maxQstep 0

/-- Second scan of `ConvertDepthToImage`, per sample:
`unsigned char d = static_cast<unsigned char>(255 - (_data[j] * factor))`. -/
def depthByte (factor : F) (d : F) : Option ℕ :=
  toUChar (fsub (F.fin 255) (fmul d factor))

/-- `DepthCameraSensorPrivate::ConvertDepthToImage`: computes
`factor = 255 / maxDepth` and writes the per-sample byte into the three
colour channels of the output buffer. -/
def ConvertDepthToImage (data : List F) : List (Option ℕ) :=
  let factor := fdiv (F.fin 255) (maxDepthScan data)
  (data.map (depthByte factor)).flatMap (fun b => [b, b, b])

/-- A sample a depth frame may hold: a nonnegative finite range or `+inf`
("no return"). -/
def isDepthSample : F → Bool
  | F.fin q => decide (0 ≤ q)
  | F.pinf => true
  | _ => false

/-- Does the frame hold at least one strictly positive finite sample? -/
def hasPosFiniteSample (data : List F) : Bool :=
  data.any (fun d => match d with | F.fin q => decide (0 < q) | _ => false)

/-- Does the frame hold at least one finite sample? -/
def hasFiniteSample (data : List F) : Bool := data.any isFiniteF

/-- A 4x4 matrix of doubles, row major, mirroring `gz::math::Matrix4d`'s
16-argument constructor. -/
structure Mat4 where
  m00 : ℚ
  m01 : ℚ
  m02 : ℚ
  m03 : ℚ
  m10 : ℚ
  m11 : ℚ
  m12 : ℚ
  m13 : ℚ
  m20 : ℚ
  m21 : ℚ
  m22 : ℚ
  m23 : ℚ
  m30 : ℚ
  m31 : ℚ
  m32 : ℚ
  m33 : ℚ
  deriving DecidableEq, Repr

/-- Matrix product, `gz::math::Matrix4d::operator*`. -/
def mat4Mul (a b : Mat4) : Mat4 where
  m00 := a.m00 * b.m00 + a.m01 * b.m10 + a.m02 * b.m20 + a.m03 * b.m30
  m01 := a.m00 * b.m01 + a.m01 * b.m11 + a.m02 * b.m21 + a.m03 * b.m31
  m02 := a.m00 * b.m02 + a.m01 * b.m12 + a.m02 * b.m22 + a.m03 * b.m32
  m03 := a.m00 * b.m03 + a.m01 * b.m13 + a.m02 * b.m23 + a.m03 * b.m33
  m10 := a.m10 * b.m00 + a.m11 * b.m10 + a.m12 * b.m20 + a.m13 * b.m30
  m11 := a.m10 * b.m01 + a.m11 * b.m11 + a.m12 * b.m21 + a.m13 * b.m31
  m12 := a.m10 * b.m02 + a.m11 * b.m12 + a.m12 * b.m22 + a.m13 * b.m32
  m13 := a.m10 * b.m03 + a.m11 * b.m13 + a.m12 * b.m23 + a.m13 * b.m33
  m20 := a.m20 * b.m00 + a.m21 * b.m10 + a.m22 * b.m20 + a.m23 * b.m30
  m21 := a.m20 * b.m01 + a.m21 * b.m11 + a.m22 * b.m21 + a.m23 * b.m31
  m22 := a.m20 * b.m02 + a.m21 * b.m12 + a.m22 * b.m22 + a.m23 * b.m32
  m23 := a.m20 * b.m03 + a.m21 * b.m13 + a.m22 * b.m23 + a.m23 * b.m33
  m30 := a.m30 * b.m00 + a.m31 * b.m10 + a.m32 * b.m20 + a.m33 * b.m30
  m31 := a.m30 * b.m01 + a.m31 * b.m11 + a.m32 * b.m21 + a.m33 * b.m31
  m32 := a.m30 * b.m02 + a.m31 * b.m12 + a.m32 * b.m22 + a.m33 * b.m32
  m33 := a.m30 * b.m03 + a.m31 * b.m13 + a.m32 * b.m23 + a.m33 * b.m33

/-- `DepthCameraSensorPrivate::BuildNDCMatrix`. -/
def BuildNDCMatrix (l r b t n f : ℚ) : Mat4 :=
  let inverseWidth := 1 / (r - l)
  let inverseHeight := 1 / (t - b)
  let inverseDistance := 1 / (f - n)
  { m00 := 2 * inverseWidth
    m01 := 0
    m02 := 0
    m03 := -(r + l) * inverseWidth
    m10 := 0
    m11 := 2 * inverseHeight
    m12 := 0
    m13 := -(t + b) * inverseHeight
    m20 := 0
    m21 := 0
    m22 := -2 * inverseDistance
    m23 := -(f + n) * inverseDistance
    m30 := 0
    m31 := 0
    m32 := 0
    m33 := 1 }

/-- `DepthCameraSensorPrivate::BuildPerspectiveMatrix`. -/
def BuildPerspectiveMatrix (fx fy cx cy s n f : ℚ) : Mat4 :=
  { m00 := fx
    m01 := s
    m02 := -cx
    m03 := 0
    m10 := 0
    m11 := fy
    m12 := -cy
    m13 := 0
    m20 := 0
    m21 := 0
    m22 := n + f
    m23 := n * f
    m30 := 0
    m31 := 0
    m32 := -1
    m33 := 0 }

/-- `DepthCameraSensorPrivate::BuildProjectionMatrix`. -/
def BuildProjectionMatrix (w h fx fy cx cy s n f : ℚ) : Mat4 :=
  mat4Mul (BuildNDCMatrix 0 w 0 h n f)
    (BuildPerspectiveMatrix fx fy cx (h - cy) s n f)

/-- The double-precision value of `GZ_PI` (the IEEE double nearest to pi). -/
def gzPiQ : ℚ := 884279719003555 / 281474976710656

/-- The FOV validation in `DepthCameraSensor::CreateCamera`:
`if (angle < 0.01 || angle > GZ_PI*2) { gzerr ...; return false; }`. -/
def fovCheckPasses (angle : ℚ) : Bool :=
  !(decide (angle < 1 / 100) || decide (angle > gzPiQ * 2))

/-- `DepthCameraSensor::CreateCamera` restricted to its fallible steps: a
null camera SDF element fails, otherwise the FOV validation decides (all
remaining configuration steps cannot fail). -/
def CreateCameraOk (hasCameraSdf : Bool) (angle : ℚ) : Bool :=
  hasCameraSdf && fovCheckPasses angle

/-- Error reports `DepthCameraSensor::Load` can emit via gzerr. -/
inductive LoadError where
  | wrongType
  | nullCamera
  | pubFailed
  | pointPubFailed
  deriving DecidableEq, Repr

/-- The configuration facts `DepthCameraSensor::Load` branches on. -/
structure LoadConfig where
  sensorLoadOk : Bool
  typeIsDepthCamera : Bool
  hasCameraSdf : Bool
  pubOk : Bool
  advertiseInfoOk : Bool
  pointPubOk : Bool
  deriving DecidableEq, Repr

/-- Outcome of `DepthCameraSensor::Load`: return value, whether the instance
ended up initialized, and the errors reported to the operator. -/
structure LoadResult where
  ok : Bool
  initialized : Bool
  reported : List LoadError
  deriving DecidableEq, Repr

/-- `DepthCameraSensor::Load(const sdf::Sensor &)`. Note the wrong-type
branch in the source only logs a gzerr and falls through without
returning. -/
def Load (c : LoadConfig) : LoadResult :=
  if !c.sensorLoadOk then ⟨false, false, []⟩
  else
    let typeErrs := if !c.typeIsDepthCamera then [LoadError.wrongType] else []
    if !c.hasCameraSdf then ⟨false, false, typeErrs ++ [LoadError.nullCamera]⟩
    else if !c.pubOk then ⟨false, false, typeErrs ++ [LoadError.pubFailed]⟩
    else if !c.advertiseInfoOk then ⟨false, false, typeErrs⟩
    else if !c.pointPubOk then ⟨false, false, typeErrs ++ [LoadError.pointPubFailed]⟩
    else ⟨true, true, typeErrs⟩

/-- Observable effects of one `DepthCameraSensor::Update` tick. -/
inductive Effect where
  | infoPublished
  | renderCalled
  | depthPublished
  | callbackInvoked
  | callbackErrorReported
  | pointPublished
  deriving DecidableEq, Repr

/-- The sensor state `Update` reads and writes. Each entry of
`imageEventCallbacks` records whether that registered direct callback raises
when invoked. -/
structure SensorState where
  initialized : Bool
  hasCamera : Bool
  infoConnections : Bool
  depthPubConnections : Bool
  imageEventCallbacks : List Bool
  pointPubConnections : Bool
  depthBuffer : Option (List F)
  pointCloudBuffer : Option (List F)
  xyzBuffer : Option (List F)
  grayBuffer : Option (List (Option ℕ))
  deriving DecidableEq, Repr

/-- `DepthCameraSensor::HasDepthConnections`. -/
def HasDepthConnections (s : SensorState) : Bool :=
  s.depthPubConnections || decide (s.imageEventCallbacks.length > 0)

/-- `DepthCameraSensor::HasPointConnections`. -/
def HasPointConnections (s : SensorState) : Bool :=
  s.pointPubConnections

/-- The `common::EventT` fan-out inside the try block of `Update`: callbacks
run in order until one raises; returns the invocation effects and whether an
exception escaped the fan-out (to be caught by `Update`'s catch). -/
def fanOut : List Bool → List Effect × Bool
  | [] => ([], false)
  | raises :: rest =>
      if raises then ([Effect.callbackInvoked], true)
      else
        let p := fanOut rest
        (Effect.callbackInvoked :: p.1, p.2)

/-- Outcome of one `Update` tick: new state, effects in order, return
value. The function returning at all models that no exception escapes to
the caller. -/
structure UpdateResult where
  state : SensorState
  effects : List Effect
  ok : Bool
  deriving Repr

/-- `DepthCameraSensor::Update`. `xyzFromCloud` is the external
`PointCloudUtil::XYZFromPointCloud` collaborator; `newDepth` / `newCloud`
are the frames the render pass delivers through the capture callbacks
(`none` when the renderer delivers no new frame). -/
def Update (xyzFromCloud : List F → List F) (s : SensorState)
    (newDepth newCloud : Option (List F)) : UpdateResult :=
  if !s.initialized then ⟨s, [], false⟩
  else if !s.hasCamera then ⟨s, [], false⟩
  else
    let effs0 := if s.infoConnections then [Effect.infoPublished] else []
    if !HasDepthConnections s && !HasPointConnections s then ⟨s, effs0, false⟩
    else
      let s1 := { s with
        depthBuffer := match newDepth with
          | some fr => some fr
          | none => s.depthBuffer
        pointCloudBuffer := match newCloud with
          | some fr => some fr
          | none => s.pointCloudBuffer }
      let effs1 := effs0 ++ [Effect.renderCalled, Effect.depthPublished]
      let effs2 :=
        if decide (s1.imageEventCallbacks.length > 0) then
          let p := fanOut s1.imageEventCallbacks
          effs1 ++ p.1 ++ (if p.2 then [Effect.callbackErrorReported] else [])
        else effs1
      if HasPointConnections s1 && s1.pointCloudBuffer.isSome then
        let cloud := s1.pointCloudBuffer.getD []
        let s2 := { s1 with
          xyzBuffer := some (xyzFromCloud cloud)
          grayBuffer := some (ConvertDepthToImage (s1.depthBuffer.getD [])) }
        ⟨s2, effs2 ++ [Effect.pointPublished], true⟩
      else ⟨s1, effs2, true⟩

/-- A lazily allocated frame buffer together with the number of allocations
performed on it. -/
structure FrameStore where
  buf : Option (List F)
  allocs : ℕ
  deriving DecidableEq, Repr

/-- `DepthCameraSensor::OnNewDepthFrame`: allocate the `width*height` buffer
only when it is still null, then memcpy the incoming frame into it. -/
def OnNewDepthFrame (st : FrameStore) (frame : List F) : FrameStore :=
  match st.buf with
  | none => ⟨some frame, st.allocs + 1⟩
  | some _ => ⟨some frame, st.allocs⟩

/-- `DepthCameraSensor::OnNewRgbPointCloud`: the same allocate-once-then-copy
discipline for the `width*height*channels` cloud buffer. -/
def OnNewRgbPointCloud (st : FrameStore) (frame : List F) : FrameStore :=
  match st.buf with
  | none => ⟨some frame, st.allocs + 1⟩
  | some _ => ⟨some frame, st.allocs⟩

/-- Process a sequence of depth frames starting from the null buffer. -/
def runDepthFrames (frames : List (List F)) : FrameStore :=
  frames.foldl OnNewDepthFrame ⟨none, 0⟩

/-- Process a sequence of cloud frames starting from the null buffer. -/
def runCloudFrames (frames : List (List F)) : FrameStore :=
  frames.foldl OnNewRgbPointCloud ⟨none, 0⟩

/-- A concrete sensor state: initialized, camera present, no subscribers of
any kind, a captured depth frame in the buffer. -/
def stateNoSubs : SensorState :=
  { initialized := true
    hasCamera := true
    infoConnections := false
    depthPubConnections := false
    imageEventCallbacks := []
    pointPubConnections := false
    depthBuffer := some [F.fin 1]
    pointCloudBuffer := none
    xyzBuffer := none
    grayBuffer := none }

/-- A concrete sensor state: initialized, camera present, one camera-info
subscriber and no depth or point-cloud subscribers. -/
def stateInfoOnly : SensorState :=
  { initialized := true
    hasCamera := true
    infoConnections := true
    depthPubConnections := false
    imageEventCallbacks := []
    pointPubConnections := false
    depthBuffer := none
    pointCloudBuffer := none
    xyzBuffer := none
    grayBuffer := none }

/-- A concrete sensor state: initialized, camera present, one direct image
callback that raises, one point-cloud subscriber. -/
def stateRaisingCb : SensorState :=
  { initialized := true
    hasCamera := true
    infoConnections := false
    depthPubConnections := true
    imageEventCallbacks := [true]
    pointPubConnections := true
    depthBuffer := some [F.fin 1]
    pointCloudBuffer := some [F.fin 1, F.fin 1, F.fin 1, F.fin 1]
    xyzBuffer := none
    grayBuffer := none }

/-- A concrete sensor state: initialized, camera present, one point-cloud
subscriber and zero depth subscribers. -/
def statePointOnly : SensorState :=
  { initialized := true
    hasCamera := true
    infoConnections := false
    depthPubConnections := false
    imageEventCallbacks := []
    pointPubConnections := true
    depthBuffer := some [F.fin 2]
    pointCloudBuffer := some [F.fin 2]
    xyzBuffer := none
    grayBuffer := none }

example : maxDepthScan [F.fin 1, F.pinf, F.fin 3] = F.fin 3 := by decide

example : ConvertDepthToImage [F.pinf] = [none, none, none] := by decide

unseal Rat.mul Rat.inv Rat.add Rat.sub in
example : ConvertDepthToImage [F.fin 1, F.fin 2] =
    [some 127, some 127, some 127, some 0, some 0, some 0] := by decide

theorem maxStep_fin (c : ℚ) (d : F) :
    maxStepF (F.fin c) d = F.fin (maxQstep c d) := by
  cases d with
  | fin a => by_cases h : c < a <;> simp [maxStepF, fgt, fisinf, maxQstep, h]
  | pinf => simp [maxStepF, fgt, fisinf, maxQstep]
  | ninf => simp [maxStepF, fgt, fisinf, maxQstep]
  | nan => simp [maxStepF, fgt, fisinf, maxQstep]

theorem foldl_maxStep_eq (data : List F) : ∀ c : ℚ,
    data.foldl maxStepF (F.fin c) = F.fin (data.foldl maxQstep c) := by
  induction data with
  | nil => intro c; rfl
  | cons d ds ih =>
      intro c
      simp only [List.foldl_cons, maxStep_fin, ih]

theorem maxDepthScan_eq_fin (data : List F) :
    maxDepthScan data = F.fin (maxQList data) :=
  foldl_maxStep_eq data 0

theorem le_maxQstep (c : ℚ) (d : F) : c ≤ maxQstep c d := by
  cases d with
  | fin a =>
      by_cases h : c < a
      · simpa [maxQstep, h] using le_of_lt h
      · simp [maxQstep, h]
  | pinf => simp [maxQstep]
  | ninf => simp [maxQstep]
  | nan => simp [maxQstep]

theorem le_foldl_maxQstep (data : List F) : ∀ c : ℚ, c ≤ data.foldl maxQstep c := by
  induction data with
  | nil => intro c; simp
  | cons d ds ih =>
      intro c
      exact le_trans (le_maxQstep c d) (ih (maxQstep c d))

theorem mem_le_foldl_maxQstep (data : List F) : ∀ c a : ℚ,
    F.fin a ∈ data → a ≤ data.foldl maxQstep c := by
  induction data with
  | nil => intro c a ha; simp at ha
  | cons d ds ih =>
      intro c a ha
      rcases List.mem_cons.mp ha with h | h
      · subst h
        refine le_trans ?_ (le_foldl_maxQstep ds (maxQstep c (F.fin a)))
        by_cases hca : c < a <;> simp [maxQstep, hca]
        exact le_of_not_lt hca
      · exact ih (maxQstep c d) a h

theorem maxQList_nonneg (data : List F) : 0 ≤ maxQList data :=
  le_foldl_maxQstep data 0

theorem maxQList_pos (data : List F) (h : hasPosFiniteSample data = true) :
    0 < maxQList data := by
  rcases List.any_eq_true.mp h with ⟨d, hd, hq⟩
  cases d with
  | fin a =>
      have ha : 0 < a := by simpa using hq
      exact lt_of_lt_of_le ha (mem_le_foldl_maxQstep data 0 a hd)
  | pinf => simp at hq
  | ninf => simp at hq
  | nan => simp at hq

theorem mem_le_maxQList (data : List F) (a : ℚ) (ha : F.fin a ∈ data) :
    a ≤ maxQList data :=
  mem_le_foldl_maxQstep data 0 a ha

theorem maxStepF_of_inf (m d : F) (h : fisinf d = true) : maxStepF m d = m := by
  unfold maxStepF
  rw [h]
  simp

theorem maxDepthScan_filter (data : List F) :
    maxDepthScan data = maxDepthScan (data.filter (fun d => !(fisinf d))) := by
  have key : ∀ (l : List F) (m : F),
      l.foldl maxStepF m = (l.filter (fun d => !(fisinf d))).foldl maxStepF m := by
    intro l
    induction l with
    | nil => intro m; rfl
    | cons d ds ih =>
        intro m
        by_cases h : fisinf d = true
        · rw [List.foldl_cons, maxStepF_of_inf m d h, ih m, List.filter_cons]
          simp [h]
        · simp only [Bool.not_eq_true] at h
          rw [List.foldl_cons, List.filter_cons]
          simp only [h, Bool.not_false, if_pos]
          rw [List.foldl_cons, ih (maxStepF m d)]
  exact key data (F.fin 0)

theorem fdiv_fin_fin (a b : ℚ) : fdiv (F.fin a) (F.fin b)
    = if b = 0 then (if 0 < a then F.pinf else if a < 0 then F.ninf else F.nan)
      else F.fin (a / b) := rfl

theorem fmul_fin_fin (a b : ℚ) : fmul (F.fin a) (F.fin b) = F.fin (a * b) := rfl

theorem fmul_pinf_fin (b : ℚ) :
    fmul F.pinf (F.fin b)
      = if 0 < b then F.pinf else if b < 0 then F.ninf else F.nan := rfl

theorem fsub_fin_fin (a b : ℚ) : fsub (F.fin a) (F.fin b) = F.fin (a - b) := rfl

theorem fsub_fin_pinf (a : ℚ) : fsub (F.fin a) F.pinf = F.ninf := rfl

theorem toUChar_fin (q : ℚ) : toUChar (F.fin q)
    = if 0 ≤ qtrunc q ∧ qtrunc q ≤ 255 then some (qtrunc q).toNat else none := rfl

theorem toUChar_ninf : toUChar F.ninf = none := rfl

theorem depthByte_finite_eval (q a : ℚ) (hq : 0 < q) (ha0 : 0 ≤ a) (haq : a ≤ q) :
    depthByte (fdiv (F.fin 255) (F.fin q)) (F.fin a)
      = some (qtrunc (255 - a * (255 / q))).toNat
    ∧ (qtrunc (255 - a * (255 / q))).toNat ≤ 255 := by
  have hqne : q ≠ 0 := ne_of_gt hq
  have hfac0 : (0 : ℚ) ≤ 255 / q := by positivity
  have hx0 : (0 : ℚ) ≤ a * (255 / q) := mul_nonneg ha0 hfac0
  have hx255 : a * (255 / q) ≤ 255 := by
    have h1 : a * (255 / q) ≤ q * (255 / q) := mul_le_mul_of_nonneg_right haq hfac0
    have h2 : q * (255 / q) = 255 := by field_simp
    rw [h2] at h1
    exact h1
  have hv0 : (0 : ℚ) ≤ 255 - a * (255 / q) := by linarith
  have hv255 : (255 : ℚ) - a * (255 / q) ≤ 255 := by linarith
  have htr : qtrunc (255 - a * (255 / q)) = ⌊(255 : ℚ) - a * (255 / q)⌋ := by
    unfold qtrunc
    rw [if_pos hv0]
  have hfl0 : 0 ≤ ⌊(255 : ℚ) - a * (255 / q)⌋ := by
    rw [Int.le_floor]
    exact_mod_cast hv0
  have hfl255 : ⌊(255 : ℚ) - a * (255 / q)⌋ ≤ 255 := by
    have := Int.floor_le_floor hv255
    simpa using this
  constructor
  · unfold depthByte
    rw [fdiv_fin_fin, if_neg hqne, fmul_fin_fin, fsub_fin_fin, toUChar_fin]
    rw [if_pos ?c]
    case c =>
      rw [htr]
      exact ⟨hfl0, hfl255⟩
  · rw [htr]
    omega

theorem depthByte_at_max (q : ℚ) (hq : 0 < q) :
    depthByte (fdiv (F.fin 255) (F.fin q)) (F.fin q) = some 0 := by
  have hx : q * (255 / q) = 255 := by field_simp
  have h := (depthByte_finite_eval q q hq (le_of_lt hq) le_rfl).1
  rw [h, hx]
  norm_num [qtrunc]

theorem depthByte_at_pinf (q : ℚ) (hq : 0 < q) :
    depthByte (fdiv (F.fin 255) (F.fin q)) F.pinf = none := by
  have hqne : q ≠ 0 := ne_of_gt hq
  have hfac : 0 < 255 / q := by positivity
  unfold depthByte
  rw [fdiv_fin_fin, if_neg hqne, fmul_pinf_fin, if_pos hfac, fsub_fin_pinf,
    toUChar_ninf]

theorem flatMap_triple_get (l : List (Option ℕ)) : ∀ j : ℕ, j < l.length →
    (l.flatMap (fun b => [b, b, b]))[3 * j]? = l[j]?
    ∧ (l.flatMap (fun b => [b, b, b]))[3 * j + 1]? = l[j]?
    ∧ (l.flatMap (fun b => [b, b, b]))[3 * j + 2]? = l[j]? := by
  induction l with
  | nil => intro j hj; simp at hj
  | cons hd tl ih =>
      intro j hj
      cases j with
      | zero => simp
      | succ k =>
          have hk : k < tl.length := by simpa using hj
          have e0 : 3 * (k + 1) = (3 * k + 2) + 1 := by ring
          have e1 : 3 * (k + 1) + 1 = (3 * k + 2 + 1) + 1 := by ring
          have e2 : 3 * (k + 1) + 2 = (3 * k + 2 + 1 + 1) + 1 := by ring
          have hcons : (hd :: tl).flatMap (fun b => [b, b, b])
              = hd :: hd :: hd :: tl.flatMap (fun b => [b, b, b]) := by
            simp
          rcases ih k hk with ⟨ih0, ih1, ih2⟩
          refine ⟨?_, ?_, ?_⟩
          · rw [hcons, e0]
            simpa using ih0
          · rw [hcons, e1]
            simpa [Nat.add_assoc] using ih1
          · rw [hcons, e2]
            simpa [Nat.add_assoc] using ih2

theorem fanOut_raised (cbs : List Bool) (h : true ∈ cbs) : (fanOut cbs).2 = true := by
  induction cbs with
  | nil => simp at h
  | cons c cs ih =>
      cases c
      · have h2 : true ∈ cs := by simpa using h
        simp [fanOut, ih h2]
      · simp [fanOut]

theorem OnNewDepthFrame_buf (st : FrameStore) (fr : List F) :
    (OnNewDepthFrame st fr).buf = some fr := by
  rcases st with ⟨b, al⟩
  cases b <;> rfl

theorem foldl_capture_allocs (frames : List (List F)) : ∀ st : FrameStore,
    st.buf.isSome = true → (frames.foldl OnNewDepthFrame st).allocs = st.allocs := by
  induction frames with
  | nil => intro st _; rfl
  | cons fr frs ih =>
      intro st hst
      rw [List.foldl_cons]
      have h1 : (OnNewDepthFrame st fr).allocs = st.allocs := by
        rcases st with ⟨b, al⟩
        cases b with
        | none => simp at hst
        | some x => rfl
      have h2 : (OnNewDepthFrame st fr).buf.isSome = true := by
        rw [OnNewDepthFrame_buf]
        rfl
      rw [ih _ h2, h1]

theorem runDepthFrames_allocs_one (frames : List (List F)) (h : frames ≠ []) :
    (runDepthFrames frames).allocs = 1 := by
  rcases List.exists_cons_of_ne_nil h with ⟨f, fs, rfl⟩
  unfold runDepthFrames
  rw [List.foldl_cons]
  have hstep : OnNewDepthFrame ⟨none, 0⟩ f = ⟨some f, 1⟩ := rfl
  rw [hstep]
  exact foldl_capture_allocs fs ⟨some f, 1⟩ rfl

theorem runDepthFrames_last (pre : List (List F)) (fr : List F) :
    (runDepthFrames (pre ++ [fr])).buf = some fr := by
  unfold runDepthFrames
  rw [List.foldl_append, List.foldl_cons, List.foldl_nil]
  exact OnNewDepthFrame_buf _ fr

theorem runCloudFrames_eq_runDepthFrames : runCloudFrames = runDepthFrames := by
  funext frames
  rfl

/-- Claim C1: for all width, height, fx, fy, cx, cy, skew, near, far with
right ≠ left, top ≠ bottom and far ≠ near, `BuildProjectionMatrix` is the
product of `BuildNDCMatrix(0, w, 0, h, near, far)` and
`BuildPerspectiveMatrix(fx, fy, cx, h - cy, skew, near, far)`; the NDC matrix
has diagonal scale entries `2/(right-left)`, `2/(top-bottom)`,
`-2/(far-near)` and translation entries `-(right+left)/(right-left)`,
`-(top+bottom)/(top-bottom)`, `-(far+near)/(far-near)`; the perspective
matrix's third row encodes `near+far` and `near*far` and its fourth row is
`[0,0,-1,0]`; the Y-flip `cy' = height - cy` is applied before composing. -/
theorem BuildProjectionMatrix_decomposition
    (w h fx fy cx cy s near far : ℚ)
    (hrl : w ≠ 0) (htb : h ≠ 0) (hfn : far ≠ near) :
    BuildProjectionMatrix w h fx fy cx cy s near far
      = mat4Mul (BuildNDCMatrix 0 w 0 h near far)
          (BuildPerspectiveMatrix fx fy cx (h - cy) s near far)
    ∧ (BuildNDCMatrix 0 w 0 h near far).m00 = 2 / (w - 0)
    ∧ (BuildNDCMatrix 0 w 0 h near far).m11 = 2 / (h - 0)
    ∧ (BuildNDCMatrix 0 w 0 h near far).m22 = -2 / (far - near)
    ∧ (BuildNDCMatrix 0 w 0 h near far).m03 = -(w + 0) / (w - 0)
    ∧ (BuildNDCMatrix 0 w 0 h near far).m13 = -(h + 0) / (h - 0)
    ∧ (BuildNDCMatrix 0 w 0 h near far).m23 = -(far + near) / (far - near)
    ∧ (BuildPerspectiveMatrix fx fy cx (h - cy) s near far).m20 = 0
    ∧ (BuildPerspectiveMatrix fx fy cx (h - cy) s near far).m21 = 0
    ∧ (BuildPerspectiveMatrix fx fy cx (h - cy) s near far).m22 = near + far
    ∧ (BuildPerspectiveMatrix fx fy cx (h - cy) s near far).m23 = near * far
    ∧ (BuildPerspectiveMatrix fx fy cx (h - cy) s near far).m30 = 0
    ∧ (BuildPerspectiveMatrix fx fy cx (h - cy) s near far).m31 = 0
    ∧ (BuildPerspectiveMatrix fx fy cx (h - cy) s near far).m32 = -1
    ∧ (BuildPerspectiveMatrix fx fy cx (h - cy) s near far).m33 = 0 := by
  refine ⟨rfl, ?_, ?_, ?_, ?_, ?_, ?_, rfl, rfl, rfl, rfl, rfl, rfl, rfl, rfl⟩ <;>
    simp [BuildNDCMatrix] <;> ring

unseal Rat.mul Rat.inv Rat.add Rat.sub in
theorem BuildProjectionMatrix_decomposition_witness :
    ((4 : ℚ) ≠ 0 ∧ (3 : ℚ) ≠ 0 ∧ (100 : ℚ) ≠ 1 / 10)
    ∧ (BuildProjectionMatrix 4 3 2 2 2 (3 / 2) 0 (1 / 10) 100
        = mat4Mul (BuildNDCMatrix 0 4 0 3 (1 / 10) 100)
            (BuildPerspectiveMatrix 2 2 2 (3 - 3 / 2) 0 (1 / 10) 100)
      ∧ (BuildNDCMatrix 0 4 0 3 (1 / 10) 100).m00 = 2 / (4 - 0)
      ∧ (BuildNDCMatrix 0 4 0 3 (1 / 10) 100).m11 = 2 / (3 - 0)
      ∧ (BuildNDCMatrix 0 4 0 3 (1 / 10) 100).m22 = -2 / (100 - 1 / 10)
      ∧ (BuildNDCMatrix 0 4 0 3 (1 / 10) 100).m03 = -(4 + 0) / (4 - 0)
      ∧ (BuildNDCMatrix 0 4 0 3 (1 / 10) 100).m13 = -(3 + 0) / (3 - 0)
      ∧ (BuildNDCMatrix 0 4 0 3 (1 / 10) 100).m23
          = -(100 + 1 / 10) / (100 - 1 / 10)
      ∧ (BuildPerspectiveMatrix 2 2 2 (3 - 3 / 2) 0 (1 / 10) 100).m20 = 0
      ∧ (BuildPerspectiveMatrix 2 2 2 (3 - 3 / 2) 0 (1 / 10) 100).m21 = 0
      ∧ (BuildPerspectiveMatrix 2 2 2 (3 - 3 / 2) 0 (1 / 10) 100).m22
          = 1 / 10 + 100
      ∧ (BuildPerspectiveMatrix 2 2 2 (3 - 3 / 2) 0 (1 / 10) 100).m23
          = 1 / 10 * 100
      ∧ (BuildPerspectiveMatrix 2 2 2 (3 - 3 / 2) 0 (1 / 10) 100).m30 = 0
      ∧ (BuildPerspectiveMatrix 2 2 2 (3 - 3 / 2) 0 (1 / 10) 100).m31 = 0
      ∧ (BuildPerspectiveMatrix 2 2 2 (3 - 3 / 2) 0 (1 / 10) 100).m32 = -1
      ∧ (BuildPerspectiveMatrix 2 2 2 (3 - 3 / 2) 0 (1 / 10) 100).m33 = 0) :=
  ⟨⟨by norm_num, by norm_num, by norm_num⟩,
    BuildProjectionMatrix_decomposition 4 3 2 2 2 (3 / 2) 0 (1 / 10) 100
      (by norm_num) (by norm_num) (by norm_num)⟩

/-- Claim C2 (amended): for every depth frame (each sample a nonnegative
finite range or `+inf`) holding at least one strictly positive finite
sample, every finite sample yields a defined output byte in `[0,255]`, a
sample equal to the maximum finite depth maps to byte `0`, and `+inf`
samples are excluded from the computation of the maximum. The claim as
stated (only "at least one finite sample") fails on the all-zero frame, see
the counterexample. -/
theorem ConvertDepth_bytes_in_range (data : List F)
    (hdom : ∀ d ∈ data, isDepthSample d = true)
    (hpos : hasPosFiniteSample data = true) :
    (∀ d ∈ data, isFiniteF d = true →
        ∃ b, depthByte (fdiv (F.fin 255) (maxDepthScan data)) d = some b ∧ b ≤ 255)
    ∧ (∀ d ∈ data, d = maxDepthScan data →
        depthByte (fdiv (F.fin 255) (maxDepthScan data)) d = some 0)
    ∧ maxDepthScan data = maxDepthScan (data.filter (fun d => !(fisinf d))) := by
  have hq : maxDepthScan data = F.fin (maxQList data) := maxDepthScan_eq_fin data
  have hqpos : 0 < maxQList data := maxQList_pos data hpos
  refine ⟨?_, ?_, maxDepthScan_filter data⟩
  · intro d hd hfin
    cases d with
    | fin a =>
        have ha0 : 0 ≤ a := by
          have := hdom _ hd
          simpa [isDepthSample] using this
        have haq : a ≤ maxQList data := mem_le_maxQList data a hd
        rw [hq]
        rcases depthByte_finite_eval (maxQList data) a hqpos ha0 haq with ⟨he, hb⟩
        exact ⟨_, he, hb⟩
    | pinf => simp [isFiniteF] at hfin
    | ninf => simp [isFiniteF] at hfin
    | nan => simp [isFiniteF] at hfin
  · intro d hd hdm
    rw [hq] at hdm ⊢
    subst hdm
    exact depthByte_at_max (maxQList data) hqpos

unseal Rat.mul Rat.inv Rat.add Rat.sub in
theorem ConvertDepth_bytes_in_range_witness :
    ((∀ d ∈ [F.fin 2, F.fin 1, F.pinf], isDepthSample d = true)
      ∧ hasPosFiniteSample [F.fin 2, F.fin 1, F.pinf] = true)
    ∧ ((∀ d ∈ [F.fin 2, F.fin 1, F.pinf], isFiniteF d = true →
          ∃ b, depthByte (fdiv (F.fin 255) (maxDepthScan [F.fin 2, F.fin 1, F.pinf])) d
                = some b ∧ b ≤ 255)
      ∧ (∀ d ∈ [F.fin 2, F.fin 1, F.pinf],
            d = maxDepthScan [F.fin 2, F.fin 1, F.pinf] →
              depthByte (fdiv (F.fin 255) (maxDepthScan [F.fin 2, F.fin 1, F.pinf])) d
                = some 0)
      ∧ maxDepthScan [F.fin 2, F.fin 1, F.pinf]
          = maxDepthScan ([F.fin 2, F.fin 1, F.pinf].filter (fun d => !(fisinf d)))) :=
  ⟨⟨by decide, by decide⟩,
    ConvertDepth_bytes_in_range [F.fin 2, F.fin 1, F.pinf] (by decide) (by decide)⟩

/-- Claim C2 counterexample: the frame `[0]` holds a finite sample, and its
(unique, hence maximal) finite sample `0` does not map to byte `0`: the
factor is the IEEE division `255/0 = +inf`, the product `0 * inf` is NaN and
the resulting byte is undefined, not a value in `[0,255]`. -/
theorem ConvertDepth_zero_frame_cex :
    hasFiniteSample [F.fin 0] = true
    ∧ F.fin 0 = maxDepthScan [F.fin 0]
    ∧ depthByte (fdiv (F.fin 255) (maxDepthScan [F.fin 0])) (F.fin 0) ≠ some 0
    ∧ depthByte (fdiv (F.fin 255) (maxDepthScan [F.fin 0])) (F.fin 0) = none := by
  decide

/-- Claim C3 (amended): the first scan computes the maximum over the samples
that are not infinite; the second scan maps every finite sample `a` to the
byte `trunc(255 - a * 255 / maxDepth)` — C++ truncation toward zero, not
rounding — and writes that byte into all three colour channels of the
corresponding pixel; a `+inf` sample produces an undefined byte. Requires at
least one strictly positive finite sample (otherwise the division by zero of
the degenerate case applies). The rounding formula of the claim as stated
fails, see the counterexample. -/
theorem ConvertDepth_two_scan_mapping (data : List F)
    (hdom : ∀ d ∈ data, isDepthSample d = true)
    (hpos : hasPosFiniteSample data = true) :
    maxDepthScan data = maxDepthScan (data.filter (fun d => !(fisinf d)))
    ∧ (∀ q a : ℚ, maxDepthScan data = F.fin q → F.fin a ∈ data →
        depthByte (fdiv (F.fin 255) (maxDepthScan data)) (F.fin a)
          = some (qtrunc (255 - a * 255 / q)).toNat)
    ∧ (∀ d ∈ data, d = F.pinf →
        depthByte (fdiv (F.fin 255) (maxDepthScan data)) d = none)
    ∧ (∀ j : ℕ, j < data.length →
        (ConvertDepthToImage data)[3 * j]?
            = (data.map (depthByte (fdiv (F.fin 255) (maxDepthScan data))))[j]?
        ∧ (ConvertDepthToImage data)[3 * j + 1]?
            = (data.map (depthByte (fdiv (F.fin 255) (maxDepthScan data))))[j]?
        ∧ (ConvertDepthToImage data)[3 * j + 2]?
            = (data.map (depthByte (fdiv (F.fin 255) (maxDepthScan data))))[j]?) := by
  have hq : maxDepthScan data = F.fin (maxQList data) := maxDepthScan_eq_fin data
  have hqpos : 0 < maxQList data := maxQList_pos data hpos
  refine ⟨maxDepthScan_filter data, ?_, ?_, ?_⟩
  · intro q a hscan ha
    have hqeq : q = maxQList data := by
      rw [hq] at hscan
      exact (F.fin.injEq _ _).mp hscan.symm
    have ha0 : 0 ≤ a := by
      have := hdom _ ha
      simpa [isDepthSample] using this
    have haq : a ≤ maxQList data := mem_le_maxQList data a ha
    rw [hq, hqeq]
    have he := (depthByte_finite_eval (maxQList data) a hqpos ha0 haq).1
    rw [he, mul_div_assoc]
  · intro d hd hdp
    subst hdp
    rw [hq]
    exact depthByte_at_pinf (maxQList data) hqpos
  · intro j hj
    have hconv : ConvertDepthToImage data
        = (data.map (depthByte (fdiv (F.fin 255) (maxDepthScan data)))).flatMap
            (fun b => [b, b, b]) := rfl
    have hjlen : j < (data.map (depthByte (fdiv (F.fin 255) (maxDepthScan data)))).length := by
      simpa using hj
    rcases flatMap_triple_get _ j hjlen with ⟨h0, h1, h2⟩
    rw [hconv]
    exact ⟨h0, h1, h2⟩

unseal Rat.mul Rat.inv Rat.add Rat.sub in
theorem ConvertDepth_two_scan_mapping_witness :
    ((∀ d ∈ [F.fin 3, F.pinf], isDepthSample d = true)
      ∧ hasPosFiniteSample [F.fin 3, F.pinf] = true)
    ∧ (maxDepthScan [F.fin 3, F.pinf]
        = maxDepthScan ([F.fin 3, F.pinf].filter (fun d => !(fisinf d)))
      ∧ (∀ q a : ℚ, maxDepthScan [F.fin 3, F.pinf] = F.fin q →
            F.fin a ∈ [F.fin 3, F.pinf] →
              depthByte (fdiv (F.fin 255) (maxDepthScan [F.fin 3, F.pinf])) (F.fin a)
                = some (qtrunc (255 - a * 255 / q)).toNat)
      ∧ (∀ d ∈ [F.fin 3, F.pinf], d = F.pinf →
            depthByte (fdiv (F.fin 255) (maxDepthScan [F.fin 3, F.pinf])) d = none)
      ∧ (∀ j : ℕ, j < ([F.fin 3, F.pinf] : List F).length →
          (ConvertDepthToImage [F.fin 3, F.pinf])[3 * j]?
              = ([F.fin 3, F.pinf].map
                  (depthByte (fdiv (F.fin 255) (maxDepthScan [F.fin 3, F.pinf]))))[j]?
          ∧ (ConvertDepthToImage [F.fin 3, F.pinf])[3 * j + 1]?
              = ([F.fin 3, F.pinf].map
                  (depthByte (fdiv (F.fin 255) (maxDepthScan [F.fin 3, F.pinf]))))[j]?
          ∧ (ConvertDepthToImage [F.fin 3, F.pinf])[3 * j + 2]?
              = ([F.fin 3, F.pinf].map
                  (depthByte (fdiv (F.fin 255) (maxDepthScan [F.fin 3, F.pinf]))))[j]?)) :=
  ⟨⟨by decide, by decide⟩,
    ConvertDepth_two_scan_mapping [F.fin 3, F.pinf] (by decide) (by decide)⟩

unseal Rat.mul Rat.inv Rat.add Rat.sub in
/-- Claim C3 counterexample: on the frame `[9/4, 255]` the maximum is `255`
and the factor is `1`; the sample `9/4` is mapped by the code to
`static_cast<unsigned char>(255 - 9/4) = 252` (truncation), while the
formula of the claim, `255 - round(sample * 255 / maxDepth)`, gives
`255 - round(9/4) = 253`. -/
theorem ConvertDepth_round_cex :
    maxDepthScan [F.fin (9 / 4), F.fin 255] = F.fin 255
    ∧ depthByte (fdiv (F.fin 255) (maxDepthScan [F.fin (9 / 4), F.fin 255]))
        (F.fin (9 / 4)) = some 252
    ∧ 255 - round ((9 / 4 : ℚ) * 255 / 255) = 253 := by
  decide

/-- Claim C8 (code-bug evidence): on an all-infinite frame `maxDepth` stays
`0`, the factor becomes the IEEE division `255/0 = +inf`, and every output
byte of `ConvertDepthToImage` is undefined (`none`): the division is neither
guarded nor is its result clamped. -/
theorem ConvertDepth_allinf_undefined :
    fdiv (F.fin 255) (maxDepthScan [F.pinf, F.pinf]) = F.pinf
    ∧ ConvertDepthToImage [F.pinf, F.pinf]
        = [none, none, none, none, none, none] := by
  decide

/-- Claim C6 (amended): with a non-null camera SDF element, camera creation
fails if and only if the horizontal FOV lies outside the CLOSED interval
`[0.01, GZ_PI*2]`: the source test is `angle < 0.01 || angle > GZ_PI*2`, so
the boundary value `0.01` is accepted, contrary to the claim's strict
`(0.01, 2*pi]`. -/
theorem CreateCamera_fov_closed_interval (a : ℚ) :
    CreateCameraOk true a = false ↔ ¬(1 / 100 ≤ a ∧ a ≤ gzPiQ * 2) := by
  unfold CreateCameraOk fovCheckPasses
  simp [not_and_or, not_le]

unseal Rat.mul Rat.inv Rat.add Rat.sub in
/-- Claim C6 counterexample: at the boundary FOV value `0.01` the camera is
created successfully (the source test `angle < 0.01` is false), while the
claim as stated requires failure for every value not strictly greater than
`0.01`. -/
theorem CreateCamera_fov_boundary_cex :
    CreateCameraOk true (1 / 100) = true ∧ ¬((1 : ℚ) / 100 < 1 / 100) := by
  constructor
  · decide
  · decide

/-- Claim C7 (code-bug evidence): for a configuration whose declared sensor
type is not the depth-camera type but which is otherwise valid, `Load`
reports the wrong-type error to the operator (gzerr) yet does NOT abort: it
returns success and the instance becomes initialized (usable). The source's
wrong-type branch is missing a `return false`, unlike the null-camera branch
immediately below it. -/
theorem Load_wrong_type_not_fatal :
    Load ⟨true, false, true, true, true, true⟩
      = ⟨true, true, [LoadError.wrongType]⟩ := by
  decide

/-- Claim C4 (amended): on an initialized sensor with a camera, a tick with
no depth subscriber and no point-cloud subscriber performs no render call,
publishes nothing on the depth or point-cloud outputs, leaves the entire
state (in particular the depth, point-cloud, xyz and grayscale buffers)
untouched and returns false. The claim as stated ("publishes nothing") fails
because the camera-info message of step 2 is still published when an info
subscriber exists, see the counterexample. -/
theorem Update_no_subscribers_no_work (xyzF : List F → List F) (s : SensorState)
    (nd nc : Option (List F))
    (hi : s.initialized = true) (hc : s.hasCamera = true)
    (hd : HasDepthConnections s = false) (hp : HasPointConnections s = false) :
    (Update xyzF s nd nc).state = s
    ∧ (Update xyzF s nd nc).ok = false
    ∧ Effect.renderCalled ∉ (Update xyzF s nd nc).effects
    ∧ Effect.depthPublished ∉ (Update xyzF s nd nc).effects
    ∧ Effect.pointPublished ∉ (Update xyzF s nd nc).effects := by
  have hred : Update xyzF s nd nc
      = ⟨s, if s.infoConnections then [Effect.infoPublished] else [], false⟩ := by
    unfold Update
    rw [hi, hc, hd, hp]
    rfl
  rw [hred]
  refine ⟨rfl, rfl, ?_, ?_, ?_⟩ <;> cases s.infoConnections <;> simp

theorem Update_no_subscribers_no_work_witness :
    (stateNoSubs.initialized = true
      ∧ stateNoSubs.hasCamera = true
      ∧ HasDepthConnections stateNoSubs = false
      ∧ HasPointConnections stateNoSubs = false)
    ∧ ((Update (fun c => c) stateNoSubs none none).state = stateNoSubs
      ∧ (Update (fun c => c) stateNoSubs none none).ok = false
      ∧ Effect.renderCalled ∉ (Update (fun c => c) stateNoSubs none none).effects
      ∧ Effect.depthPublished ∉ (Update (fun c => c) stateNoSubs none none).effects
      ∧ Effect.pointPublished ∉ (Update (fun c => c) stateNoSubs none none).effects) :=
  ⟨⟨rfl, rfl, rfl, rfl⟩,
    Update_no_subscribers_no_work (fun c => c) stateNoSubs none none rfl rfl rfl rfl⟩

/-- Claim C4 counterexample: with zero depth and zero point subscribers but
one camera-info subscriber, the tick still publishes the camera-info
message, so "publishes nothing" is false as stated. -/
theorem Update_info_still_published_cex :
    (Update (fun c => c) stateInfoOnly none none).effects
      = [Effect.infoPublished] := by
  rfl

/-- Claim C5: when a registered direct-callback subscriber raises during the
depth-image fan-out, the exception is caught inside `Update` (the
catch-block error report appears and `Update` returns normally with
success, so nothing propagates to the caller), and the point-cloud message
of the same tick is still assembled and published (given a point-cloud
subscriber and a captured cloud buffer). -/
theorem Update_callback_fault_isolated (xyzF : List F → List F)
    (s : SensorState) (nd : Option (List F)) (cloud : List F)
    (hi : s.initialized = true) (hc : s.hasCamera = true)
    (hr : true ∈ s.imageEventCallbacks)
    (hp : s.pointPubConnections = true) :
    (Update xyzF s nd (some cloud)).ok = true
    ∧ Effect.callbackErrorReported ∈ (Update xyzF s nd (some cloud)).effects
    ∧ Effect.depthPublished ∈ (Update xyzF s nd (some cloud)).effects
    ∧ Effect.pointPublished ∈ (Update xyzF s nd (some cloud)).effects := by
  have hne : s.imageEventCallbacks ≠ [] := List.ne_nil_of_mem hr
  have hlen : decide (s.imageEventCallbacks.length > 0) = true := by
    simp [List.length_pos, hne]
  have hgate : (!HasDepthConnections s && !HasPointConnections s) = false := by
    unfold HasPointConnections
    rw [hp]
    simp
  have hraise : (fanOut s.imageEventCallbacks).2 = true := fanOut_raised _ hr
  unfold Update
  rw [hi, hc, hgate]
  simp only [Bool.not_true, Bool.false_eq_true, if_false, hlen, if_true,
    hraise, HasPointConnections, hp, Option.isSome_some, Bool.and_self,
    List.mem_append, List.mem_singleton, List.mem_cons]
  simp [hraise]

/-- Claim C10: on an initialized sensor with a camera, when at least one
point-cloud subscriber exists and zero depth subscribers exist, the tick
still publishes the depth image message on the depth topic (the depth
publish is unconditional once the combined no-subscriber check passes), and
the tick reports success. -/
theorem Update_point_only_still_publishes_depth (xyzF : List F → List F)
    (s : SensorState) (nd nc : Option (List F))
    (hi : s.initialized = true) (hc : s.hasCamera = true)
    (hdp : s.depthPubConnections = false) (hcb : s.imageEventCallbacks = [])
    (hp : s.pointPubConnections = true) :
    Effect.depthPublished ∈ (Update xyzF s nd nc).effects
    ∧ (Update xyzF s nd nc).ok = true := by
  have hgate : (!HasDepthConnections s && !HasPointConnections s) = false := by
    unfold HasPointConnections
    rw [hp]
    simp
  have hlen : decide (s.imageEventCallbacks.length > 0) = false := by
    rw [hcb]
    rfl
  unfold Update
  rw [hi, hc, hgate]
  simp only [Bool.not_true, Bool.false_eq_true, if_false, hlen,
    Bool.false_eq_true, if_false]
  split
  · simp
  · simp

theorem Update_callback_fault_isolated_witness :
    (stateRaisingCb.initialized = true
      ∧ stateRaisingCb.hasCamera = true
      ∧ true ∈ stateRaisingCb.imageEventCallbacks
      ∧ stateRaisingCb.pointPubConnections = true)
    ∧ ((Update (fun c => c) stateRaisingCb none (some [F.fin 2, F.fin 2, F.fin 2, F.fin 2])).ok = true
      ∧ Effect.callbackErrorReported
          ∈ (Update (fun c => c) stateRaisingCb none (some [F.fin 2, F.fin 2, F.fin 2, F.fin 2])).effects
      ∧ Effect.depthPublished
          ∈ (Update (fun c => c) stateRaisingCb none (some [F.fin 2, F.fin 2, F.fin 2, F.fin 2])).effects
      ∧ Effect.pointPublished
          ∈ (Update (fun c => c) stateRaisingCb none (some [F.fin 2, F.fin 2, F.fin 2, F.fin 2])).effects) :=
  ⟨⟨rfl, rfl, by decide, rfl⟩,
    Update_callback_fault_isolated (fun c => c) stateRaisingCb none
      [F.fin 2, F.fin 2, F.fin 2, F.fin 2] rfl rfl (by decide) rfl⟩

theorem Update_point_only_still_publishes_depth_witness :
    (statePointOnly.initialized = true
      ∧ statePointOnly.hasCamera = true
      ∧ statePointOnly.depthPubConnections = false
      ∧ statePointOnly.imageEventCallbacks = []
      ∧ statePointOnly.pointPubConnections = true)
    ∧ (Effect.depthPublished
        ∈ (Update (fun c => c) statePointOnly none none).effects
      ∧ (Update (fun c => c) statePointOnly none none).ok = true) :=
  ⟨⟨rfl, rfl, rfl, rfl, rfl⟩,
    Update_point_only_still_publishes_depth (fun c => c) statePointOnly
      none none rfl rfl rfl rfl rfl⟩

/-- Claim C9: over any sequence of frame-capture calls with stable
dimensions, the depth capture allocates its buffer exactly once — on the
first call, sized to `width*height` — and every call (first included) copies
the incoming frame into the store, so after each call the stored buffer
equals the frame just captured; the point-cloud capture does the same with
size `width*height*channels`. -/
theorem Capture_lazy_alloc_then_copy (w h c : ℕ) (dframes cframes : List (List F))
    (hdne : dframes ≠ []) (hdl : ∀ fr ∈ dframes, fr.length = w * h)
    (hcne : cframes ≠ []) (hcl : ∀ fr ∈ cframes, fr.length = w * h * c) :
    (runDepthFrames dframes).allocs = 1
    ∧ (∀ fr0, dframes.head? = some fr0 →
        runDepthFrames [fr0] = ⟨some fr0, 1⟩ ∧ fr0.length = w * h)
    ∧ (∀ pre fr post, dframes = pre ++ fr :: post →
        (runDepthFrames (pre ++ [fr])).buf = some fr
        ∧ (runDepthFrames (pre ++ [fr])).allocs = 1)
    ∧ (runCloudFrames cframes).allocs = 1
    ∧ (∀ fr0, cframes.head? = some fr0 →
        runCloudFrames [fr0] = ⟨some fr0, 1⟩ ∧ fr0.length = w * h * c)
    ∧ (∀ pre fr post, cframes = pre ++ fr :: post →
        (runCloudFrames (pre ++ [fr])).buf = some fr
        ∧ (runCloudFrames (pre ++ [fr])).allocs = 1) := by
  rw [runCloudFrames_eq_runDepthFrames]
  refine ⟨runDepthFrames_allocs_one dframes hdne, ?_, ?_,
    runDepthFrames_allocs_one cframes hcne, ?_, ?_⟩
  · intro fr0 h0
    have hmem : fr0 ∈ dframes := by
      rcases List.exists_cons_of_ne_nil hdne with ⟨f, fs, rfl⟩
      simp at h0
      subst h0
      exact List.mem_cons_self _ _
    exact ⟨rfl, hdl fr0 hmem⟩
  · intro pre fr post hsplit
    refine ⟨runDepthFrames_last pre fr, ?_⟩
    exact runDepthFrames_allocs_one (pre ++ [fr]) (by simp)
  · intro fr0 h0
    have hmem : fr0 ∈ cframes := by
      rcases List.exists_cons_of_ne_nil hcne with ⟨f, fs, rfl⟩
      simp at h0
      subst h0
      exact List.mem_cons_self _ _
    exact ⟨rfl, hcl fr0 hmem⟩
  · intro pre fr post hsplit
    refine ⟨runDepthFrames_last pre fr, ?_⟩
    exact runDepthFrames_allocs_one (pre ++ [fr]) (by simp)

theorem Capture_lazy_alloc_then_copy_witness :
    (([[F.fin 1, F.fin 2], [F.fin 3, F.fin 4]] : List (List F)) ≠ []
      ∧ (∀ fr ∈ [[F.fin 1, F.fin 2], [F.fin 3, F.fin 4]], fr.length = 2 * 1)
      ∧ ([[F.fin 5, F.fin 5, F.fin 5, F.fin 5, F.fin 5, F.fin 5]] : List (List F)) ≠ []
      ∧ (∀ fr ∈ [[F.fin 5, F.fin 5, F.fin 5, F.fin 5, F.fin 5, F.fin 5]],
          fr.length = 2 * 1 * 3))
    ∧ ((runDepthFrames [[F.fin 1, F.fin 2], [F.fin 3, F.fin 4]]).allocs = 1
      ∧ (∀ fr0, ([[F.fin 1, F.fin 2], [F.fin 3, F.fin 4]] : List (List F)).head? = some fr0 →
          runDepthFrames [fr0] = ⟨some fr0, 1⟩ ∧ fr0.length = 2 * 1)
      ∧ (∀ pre fr post, ([[F.fin 1, F.fin 2], [F.fin 3, F.fin 4]] : List (List F)) = pre ++ fr :: post →
          (runDepthFrames (pre ++ [fr])).buf = some fr
          ∧ (runDepthFrames (pre ++ [fr])).allocs = 1)
      ∧ (runCloudFrames [[F.fin 5, F.fin 5, F.fin 5, F.fin 5, F.fin 5, F.fin 5]]).allocs = 1
      ∧ (∀ fr0, ([[F.fin 5, F.fin 5, F.fin 5, F.fin 5, F.fin 5, F.fin 5]] : List (List F)).head? = some fr0 →
          runCloudFrames [fr0] = ⟨some fr0, 1⟩ ∧ fr0.length = 2 * 1 * 3)
      ∧ (∀ pre fr post, ([[F.fin 5, F.fin 5, F.fin 5, F.fin 5, F.fin 5, F.fin 5]] : List (List F)) = pre ++ fr :: post →
          (runCloudFrames (pre ++ [fr])).buf = some fr
          ∧ (runCloudFrames (pre ++ [fr])).allocs = 1)) :=
  ⟨⟨by decide, by decide, by decide, by decide⟩,
    Capture_lazy_alloc_then_copy 2 1 3
      [[F.fin 1, F.fin 2], [F.fin 3, F.fin 4]]
      [[F.fin 5, F.fin 5, F.fin 5, F.fin 5, F.fin 5, F.fin 5]]
      (by decide) (by decide) (by decide) (by decide)⟩
